import Mathlib

/-!
Verification development for the vector-search notebook
`example_create_vector_search.py`.

The notebook orchestrates a managed vector-search platform: it writes a
10-record billing-FAQ Delta table, enables the change data feed, creates a
vector-search endpoint and a delta-sync index (absorbing "already exists"
failures by substring-matching the exception message), waits for the index to
come ONLINE in a `while ... sleep(5)` loop, and runs an ANN and a hybrid
similarity search.

The notebook's own logic (the try/except handlers, the polling loop, the
dataset literal, the cell ordering) is embedded directly from the source.
The platform side (index creation on the service, the query engine) is not
part of the repository; where a claim depends on it, it is modelled from the
specification and marked `Modelled from the spec:` in the doc comment.
-/

set_option maxRecDepth 40000

namespace VSNotebook

/-- Whether the character list `pat` is a leading segment of `hay`.
Together with `containsChars` this embeds Python's `startswith` and `in`
operators on strings, which the notebook uses on exception messages and on
the index status. -/
def leadEq : List Char → List Char → Bool
  | _, [] => true
  | [], _ :: _ => false
  | c :: cs, p :: ps => c == p && leadEq cs ps

/-- Whether the character list `pat` occurs contiguously somewhere in `hay`
(the embedding of Python's `pat in hay` on strings). -/
def containsChars : List Char → List Char → Bool
  | [], pat => pat.isEmpty
  | c :: cs, pat => leadEq (c :: cs) pat || containsChars cs pat

/-- Python `pat in hay` for strings. -/
def str_contains (hay pat : String) : Bool :=
  containsChars hay.data pat.data

/-- Python `s.startswith(pat)`. -/
def starts_with (s pat : String) : Bool :=
  leadEq s.data pat.data

/-- Source lines 102-104: the endpoint-creation except clause absorbs the
error exactly when its message contains the ALREADY_EXISTS error code or the
substring "status_code 409". -/
def endpoint_create_absorbs (msg : String) : Bool :=
  str_contains msg "\"error_code\":\"ALREADY_EXISTS\"" || str_contains msg "status_code 409"

/-- Source lines 102-107: the try/except around `create_endpoint_and_wait`.
`Except.ok ()` is the "print and continue" branch; `Except.error msg` is the
bare `raise`, which re-raises the same exception unmodified. -/
def handle_endpoint_create_error (msg : String) : Except String Unit :=
  if endpoint_create_absorbs msg then Except.ok () else Except.error msg

/-- Source line 160: the index-creation except clause absorbs the error
exactly when its message contains the RESOURCE_ALREADY_EXISTS error code or
the substring "status_code 409". -/
def index_create_absorbs (msg : String) : Bool :=
  str_contains msg "\"error_code\":\"RESOURCE_ALREADY_EXISTS\"" || str_contains msg "status_code 409"

/-- Source lines 158-163: the try/except around `create_delta_sync_index`.
`Except.ok ()` is the "print and continue" branch; `Except.error msg` is the
bare `raise` re-raising the same exception unmodified. -/
def handle_index_create_error (msg : String) : Except String Unit :=
  if index_create_absorbs msg then Except.ok () else Except.error msg

/-- Source lines 61-72: the 10-record billing FAQ dataset, copied literally.
The first component is the `index` (primary key) column, the second the `faq`
text column. -/
def faq_data : List (Nat × String) :=
  [(1, "Q: How is my bill calculated? A: Your bill includes your monthly plan fee, additional charges for extra services, taxes, and any applicable discounts. A detailed breakdown is available in your MyTelco account."),
   (2, "Q: Why is my bill higher than usual? A: Your bill may be higher due to extra data usage, international calls, roaming charges, or a recent plan change. Check the usage details in the MyTelco app."),
   (3, "Q: What happens if I don’t pay my bill on time? A: Late payments may incur a penalty and could lead to service suspension. Reconnection fees may apply. Set up autopay to avoid these issues."),
   (4, "Q: How can I set up autopay for my bill? A: Enable autopay by logging into your MyTelco account, navigating to the billing section, and selecting \x27Set Up Autopay\x27."),
   (5, "Q: How do I dispute a charge on my bill? A: If you believe there\x27s an incorrect charge, contact customer support within 30 days of receiving your bill. Provide supporting details for review."),
   (6, "Q: Can I get a refund for overcharges? A: Refunds for overcharges may be available depending on the case. Contact customer support for a review, and any approved refunds will be credited to your next bill."),
   (7, "Q: Why was I charged a late payment fee? A: Late fees apply when payments are made after the due date. Check your bill for the due date and ensure timely payments to avoid these charges."),
   (8, "Q: How do I check my data usage? A: You can check your real-time data usage in the MyTelco app or by logging into your account online."),
   (9, "Q: Why do I see a roaming charge on my bill? A: Roaming charges apply when using your phone outside your network’s coverage. Check your plan settings or enable roaming notifications to avoid unexpected charges."),
   (10, "Q: Can I change my bill due date? A: Yes, you can request a bill due date change by contacting customer support or modifying it in your account settings.")]

/-- Record 10 of the dataset (source line 71), the expected top ANN hit for
the bill-due-date query. -/
def faq_record_10 : Nat × String :=
  (10, "Q: Can I change my bill due date? A: Yes, you can request a bill due date change by contacting customer support or modifying it in your account settings.")

/-- Source line 171: the query text used by both similarity searches. -/
def query_text : String := "Can I change my bill due date"

/-- Source line 79: the dataset is written with `mode("overwrite")`. -/
def table_write_mode : String := "overwrite"

/-- Modelled from the spec: the platform state visible to index creation is
the collection of index names that currently exist (the platform itself is
not part of the repository; only the notebook's calls into it are). -/
structure PlatformState where
  indexes : List String
  deriving DecidableEq

/-- Modelled from the spec: the message of the already-exists error the
platform raises when an index of the requested name exists; it carries the
RESOURCE_ALREADY_EXISTS error code that the notebook's except clause matches. -/
def resource_already_exists_msg : String :=
  "RestException: status_code 409, \"error_code\":\"RESOURCE_ALREADY_EXISTS\": index already exists"

/-- Modelled from the spec: the platform side of `create_delta_sync_index`
(vendor SDK, not under src/). If an index of the same name already exists the
call fails with an already-exists error and the platform state is unchanged;
otherwise the index is created. -/
def create_delta_sync_index (st : PlatformState) (name : String) :
    PlatformState × Except String Unit :=
  if name ∈ st.indexes then (st, Except.error resource_already_exists_msg)
  else ({ indexes := name :: st.indexes }, Except.ok ())

/-- The index-creation part of the cell at source lines 141-163: call
`create_delta_sync_index` inside try/except, absorbing matched errors and
re-raising the rest. -/
def run_create_index_cell (st : PlatformState) (name : String) :
    PlatformState × Except String Unit :=
  match create_delta_sync_index st name with
  | (st2, Except.ok _) => (st2, Except.ok ())
  | (st2, Except.error msg) => (st2, handle_index_create_error msg)

/-- The polling loop at source lines 151-156, fuel-instrumented.
`stateSeq i` is the `detailed_state` string that `index.describe()` reports at
the loop's i-th check; `poll_wait stateSeq i fuel` runs up to `fuel` further
iterations of `while not ... startswith('ONLINE'): sleep(5)` starting at check
`i`. `some j` means the loop exited after observing an ONLINE state at check
`j` (so it slept `j - i` times); `none` means the loop is still running after
`fuel` checks. The source loop itself has no fuel: it terminates exactly when
some finite fuel suffices. -/
def poll_wait (stateSeq : Nat → String) : Nat → Nat → Option Nat
  | _, 0 => none
  | i, fuel + 1 =>
      if starts_with (stateSeq i) "ONLINE" then some i
      else poll_wait stateSeq (i + 1) fuel

/-- The source polling loop never exits on the describe-state sequence
`stateSeq`: no amount of fuel makes `poll_wait` return. -/
def poll_wait_diverges (stateSeq : Nat → String) : Prop :=
  ∀ fuel : Nat, poll_wait stateSeq 0 fuel = none

/-- The whole try block of the cell at source lines 141-163, as a function of
the outcome of the platform call and of the describe-state sequence:
on `Except.ok` the notebook enters the polling loop (the returned number is
how many checks the loop made before seeing ONLINE; `none` means still
polling after `fuel` checks); on `Except.error` the polling loop is skipped
entirely and the except clause runs, so the count of describe() polls is 0. -/
def run_create_and_wait_cell (createRes : Except String Unit)
    (stateSeq : Nat → String) (fuel : Nat) : Option (Nat × Except String Unit) :=
  match createRes with
  | Except.ok _ =>
      match poll_wait stateSeq 0 fuel with
      | some polls => some (polls, Except.ok ())
      | none => none
  | Except.error msg => some (0, handle_index_create_error msg)

/-- The notebook's cells in source order (lines 39, 46, 79, 84, 97, 118, 125,
141, 174, 185); `enableChangeDataFeed` is the ALTER TABLE statement at lines
125-129, executed in the same cell as, and before, index creation. -/
inductive NotebookStep
  | installLibraries
  | setupConfig
  | writeFaqTable
  | selectAllRows
  | createEndpoint
  | initClient
  | enableChangeDataFeed
  | createIndexAndWait
  | searchANN
  | searchHybrid
  deriving DecidableEq

/-- The execution order of the notebook's steps, from the source. -/
def notebook_steps : List NotebookStep :=
  [NotebookStep.installLibraries, NotebookStep.setupConfig,
   NotebookStep.writeFaqTable, NotebookStep.selectAllRows,
   NotebookStep.createEndpoint, NotebookStep.initClient,
   NotebookStep.enableChangeDataFeed, NotebookStep.createIndexAndWait,
   NotebookStep.searchANN, NotebookStep.searchHybrid]

/-- Modelled from the spec (section 3): the lifecycle states of an index. -/
inductive IndexState
  | PROVISIONING
  | SYNCING
  | ONLINE
  | FAILED
  deriving DecidableEq

/-- Modelled from the spec (section 7): the error taxonomy. -/
inductive ErrKind
  | alreadyExists
  | resourceConflict
  | notReady
  | invalidArgument
  | timeout
  | upstream
  deriving DecidableEq

/-- Modelled from the spec (section 7): a typed/tagged error, an error kind
from the taxonomy together with the rendered exception message. -/
structure TaggedError where
  kind : ErrKind
  msg : String

/-- Modelled from the spec (sections 7 and 9): the typed classifier that a
reimplementation should use — an error is absorbed as an idempotent creation
no-op exactly when its kind is AlreadyExists, distinguished structurally
rather than by substring search over the message. -/
def spec_absorbs_as_already_exists (e : TaggedError) : Bool :=
  e.kind == ErrKind.alreadyExists

/-- Modelled from the spec (section 3): an index — a name, a lifecycle state,
and entries keyed by primary key carrying the source text. -/
structure Index where
  name : String
  state : IndexState
  entries : List (Nat × String)

/-- Modelled from the spec (section 4.2): the ranking order of the query
engine for a scoring function: higher score first, ties broken by primary key
ascending (the spec's stable tie order). `rankRel score a b` means `a` is
ranked at or before `b`. -/
def rankRel (score : String → Int) (a b : Nat × String) : Prop :=
  score b.2 < score a.2 ∨ (score a.2 = score b.2 ∧ a.1 ≤ b.1)

instance (score : String → Int) : DecidableRel (rankRel score) := fun a b => by
  unfold rankRel
  infer_instance

instance (score : String → Int) : IsTotal (Nat × String) (rankRel score) := by
  constructor
  intro a b
  unfold rankRel
  omega

instance (score : String → Int) : IsTrans (Nat × String) (rankRel score) := by
  constructor
  intro a b c hab hbc
  unfold rankRel at hab hbc ⊢
  omega

/-- Modelled from the spec (section 4.2): rank entries by score descending
with ties by primary key ascending. -/
def ann_rank (score : String → Int) (entries : List (Nat × String)) :
    List (Nat × String) :=
  List.insertionSort (rankRel score) entries

/-- Modelled from the spec (sections 4.2 and 7): the query-precondition
check. A query against an index that is not ONLINE fails with NotReady; a
query with `k ≤ 0` fails with InvalidArgument; the returned list collects
every violated precondition. -/
def precheck (st : IndexState) (num_results : Int) : List ErrKind :=
  (if st = IndexState.ONLINE then [] else [ErrKind.notReady]) ++
    (if num_results ≤ 0 then [ErrKind.invalidArgument] else [])

/-- The two search modes the notebook requests (source lines 177 and 188). -/
inductive SearchMode
  | ANN
  | hybrid

/-- Modelled from the spec (section 4.2): the ANN candidate pool at internal
candidate size `cand` — the `cand` best entries under the vector score. -/
def ann_candidates (idx : Index) (score : String → Int) (cand : Nat) :
    List (Nat × String) :=
  (ann_rank score idx.entries).take cand

/-- Modelled from the spec (section 4.2): the query engine behind
`similarity_search` (vendor service, not under src/). `score` is the vector
similarity of each entry's text to the query (via the external embedding
oracle); `fused` is the hybrid fusion score (lexical + vector, an external
configurable policy); `cand` is the internal candidate-pool size of hybrid
mode. If a precondition is violated the query fails with the violated kinds
and returns no results. ANN mode returns the top `num_results` entries by
`score`; hybrid mode re-scores and reorders the ANN candidate pool by `fused`
and returns its top `num_results` entries. -/
def similarity_search (idx : Index) (score fused : String → Int) (cand : Nat)
    (mode : SearchMode) (num_results : Int) :
    Except (List ErrKind) (List (Nat × String)) :=
  if precheck idx.state num_results = [] then
    match mode with
    | SearchMode.ANN =>
        Except.ok ((ann_rank score idx.entries).take num_results.toNat)
    | SearchMode.hybrid =>
        Except.ok
          ((ann_rank fused (ann_candidates idx score cand)).take num_results.toNat)
  else Except.error (precheck idx.state num_results)

/-- The primary key of the top-ranked result of a search, if any. -/
def top_result (r : Except (List ErrKind) (List (Nat × String))) : Option Nat :=
  match r with
  | Except.ok l => l.head?.map Prod.fst
  | Except.error _ => none

/-- The ONLINE index built from the 10-record FAQ dataset (the state the
notebook's searches assume after the wait loop reports ready). -/
def billing_faq_index : Index :=
  { name := "billing_faq_vs_index", state := IndexState.ONLINE, entries := faq_data }

/-- C1: re-running `create_index` with identical parameters when an index of
the same name already exists is a no-op success: the already-exists failure is
absorbed by the except clause, the platform state is unchanged (in particular
no duplicate index is produced), and no error is surfaced to the caller. -/
theorem create_index_rerun_noop (st : PlatformState) (name : String)
    (h : name ∈ st.indexes) :
    run_create_index_cell st name = (st, Except.ok ()) ∧
    (run_create_index_cell st name).1.indexes.count name = st.indexes.count name := by
  have habs : handle_index_create_error resource_already_exists_msg = Except.ok () := by
    rfl
  have hrun : run_create_index_cell st name = (st, Except.ok ()) := by
    unfold run_create_index_cell create_delta_sync_index
    rw [if_pos h]
    exact congrArg (Prod.mk st) habs
  exact ⟨hrun, by rw [hrun]⟩

/-- A platform state in which the index the notebook creates already exists. -/
def c1_platform_state : PlatformState :=
  { indexes := ["main.default.billing_faq_vs_index"] }

theorem create_index_rerun_noop_witness :
    "main.default.billing_faq_vs_index" ∈ c1_platform_state.indexes ∧
    (run_create_index_cell c1_platform_state "main.default.billing_faq_vs_index" =
        (c1_platform_state, Except.ok ()) ∧
      (run_create_index_cell c1_platform_state
            "main.default.billing_faq_vs_index").1.indexes.count
          "main.default.billing_faq_vs_index" =
        c1_platform_state.indexes.count "main.default.billing_faq_vs_index") :=
  ⟨by decide,
   create_index_rerun_noop c1_platform_state "main.default.billing_faq_vs_index"
     (by decide)⟩

/-- If describe() never reports an ONLINE state, the source polling loop never
exits, whatever the fuel and starting check. -/
theorem poll_wait_stuck_none (stateSeq : Nat → String)
    (h : ∀ i, starts_with (stateSeq i) "ONLINE" = false) :
    ∀ fuel i, poll_wait stateSeq i fuel = none := by
  intro fuel
  induction fuel with
  | zero => intro i; rfl
  | succ n ih =>
      intro i
      unfold poll_wait
      rw [h i]
      exact ih (i + 1)

/-- C2 (the code, at the failing input): with `index.describe()` permanently
reporting a PROVISIONING state, the polling loop at source lines 151-156
never exits within any number of iterations — it is an unbounded loop with no
deadline, attempt limit, or Timeout report, contrary to the claimed bounded
polling. -/
theorem polling_loop_unbounded :
    poll_wait_diverges (fun _ => "PROVISIONING") := by
  intro fuel
  refine poll_wait_stuck_none (fun _ => "PROVISIONING") (fun i => ?_) fuel 0
  show starts_with "PROVISIONING" "ONLINE" = false
  decide

/-- A ResourceConflict failure at the endpoint-creation site (transient and
retryable, not an already-exists race), rendered by the HTTP layer with its
409 status code in the message. -/
def endpoint_conflict_409_error : TaggedError :=
  { kind := ErrKind.resourceConflict,
    msg := "RestException: status_code 409, \"error_code\":\"RESOURCE_CONFLICT\": endpoint is being updated by another operation" }

/-- C3 counterexample: not every failure other than an idempotent
already-exists race propagates to the caller — the concrete ResourceConflict
failure above is not an AlreadyExists error, yet because its message carries
"status_code 409" both except clauses absorb it as a silent success instead
of re-raising it. -/
theorem conflict_not_reraised_counterexample :
    spec_absorbs_as_already_exists endpoint_conflict_409_error = false ∧
    handle_endpoint_create_error endpoint_conflict_409_error.msg = Except.ok () ∧
    handle_index_create_error endpoint_conflict_409_error.msg = Except.ok () ∧
    handle_endpoint_create_error endpoint_conflict_409_error.msg ≠
      Except.error endpoint_conflict_409_error.msg := by
  refine ⟨by decide, by rfl, by rfl, ?_⟩
  intro hcon
  rw [show handle_endpoint_create_error endpoint_conflict_409_error.msg =
    Except.ok () from rfl] at hcon
  cases hcon

/-- C3 amended: the propagation guarantee holds exactly for the failures
whose messages the except clauses do not match — any creation failure whose
message contains neither the relevant already-exists error code nor the
substring "status_code 409" is re-raised to the caller unmodified, the very
same error, never silently swallowed, at both the endpoint-creation and the
index-creation site (failures whose messages do match those patterns,
already-exists or not, are absorbed instead: see the counterexample). -/
theorem non_absorbed_errors_reraised (msg : String) :
    (endpoint_create_absorbs msg = false →
      handle_endpoint_create_error msg = Except.error msg) ∧
    (index_create_absorbs msg = false →
      handle_index_create_error msg = Except.error msg) := by
  constructor
  · intro h
    unfold handle_endpoint_create_error
    rw [h]
    rfl
  · intro h
    unfold handle_index_create_error
    rw [h]
    rfl

/-- An upstream failure message (embedding model endpoint down): not an
already-exists race, so neither except clause absorbs it. -/
def upstream_error_msg : String :=
  "RestException: status_code 500, \"error_code\":\"INTERNAL_ERROR\": embedding model endpoint unavailable"

theorem non_absorbed_errors_reraised_witness :
    endpoint_create_absorbs upstream_error_msg = false ∧
    index_create_absorbs upstream_error_msg = false ∧
    handle_endpoint_create_error upstream_error_msg = Except.error upstream_error_msg ∧
    handle_index_create_error upstream_error_msg = Except.error upstream_error_msg :=
  ⟨by decide, by decide,
   (non_absorbed_errors_reraised upstream_error_msg).1 (by decide),
   (non_absorbed_errors_reraised upstream_error_msg).2 (by decide)⟩

/-- A ResourceConflict error (transient, retryable) as rendered by the HTTP
layer: its status code is 409, so its message carries "status_code 409", but
its kind is not AlreadyExists. -/
def conflict_409_error : TaggedError :=
  { kind := ErrKind.resourceConflict,
    msg := "RestException: status_code 409, \"error_code\":\"RESOURCE_CONFLICT\": index update conflicts with an in-progress operation" }

/-- C4 counterexample: the code does not distinguish error kinds per the
taxonomy — the concrete ResourceConflict error above, which is not an
AlreadyExists error, is nonetheless absorbed as a silent no-op success by the
index-creation except clause, because the clause matches the substring
"status_code 409" in the message. -/
theorem conflict_absorbed_counterexample :
    index_create_absorbs conflict_409_error.msg = true ∧
    spec_absorbs_as_already_exists conflict_409_error = false ∧
    handle_index_create_error conflict_409_error.msg = Except.ok () :=
  ⟨by decide, by decide, by rfl⟩

/-- C4 amended: absorption is decided by substring search over the message,
not by the error's kind — every error whose message contains "status_code 409"
is absorbed as a silent no-op success by both except clauses, whatever its
kind (in particular a ResourceConflict rendered with its 409 status code). -/
theorem any_409_message_absorbed (e : TaggedError)
    (h : str_contains e.msg "status_code 409" = true) :
    handle_endpoint_create_error e.msg = Except.ok () ∧
    handle_index_create_error e.msg = Except.ok () := by
  constructor
  · unfold handle_endpoint_create_error endpoint_create_absorbs
    rw [h, Bool.or_true]
    rfl
  · unfold handle_index_create_error index_create_absorbs
    rw [h, Bool.or_true]
    rfl

theorem any_409_message_absorbed_witness :
    str_contains conflict_409_error.msg "status_code 409" = true ∧
    (handle_endpoint_create_error conflict_409_error.msg = Except.ok () ∧
      handle_index_create_error conflict_409_error.msg = Except.ok ()) :=
  ⟨by decide, any_409_message_absorbed conflict_409_error (by decide)⟩

/-- C9: on the code path where `create_delta_sync_index` raises an
already-exists error, the cell performs zero describe() readiness polls and
completes successfully — the ONLINE wait loop is skipped entirely, whatever
states describe() would report — so the notebook proceeds directly to the
similarity-search queries without having verified the index is ONLINE. -/
theorem rerun_skips_readiness_poll (msg : String) (stateSeq : Nat → String)
    (fuel : Nat) (h : index_create_absorbs msg = true) :
    run_create_and_wait_cell (Except.error msg) stateSeq fuel =
      some (0, Except.ok ()) := by
  have habs : handle_index_create_error msg = Except.ok () := by
    unfold handle_index_create_error
    rw [h]
    rfl
  show some (0, handle_index_create_error msg) = some (0, Except.ok ())
  rw [habs]

theorem rerun_skips_readiness_poll_witness :
    index_create_absorbs resource_already_exists_msg = true ∧
    run_create_and_wait_cell (Except.error resource_already_exists_msg)
        (fun _ => "PROVISIONING") 7 = some (0, Except.ok ()) :=
  ⟨by decide,
   rerun_skips_readiness_poll resource_already_exists_msg
     (fun _ => "PROVISIONING") 7 (by decide)⟩

/-- C10: every run establishes the create_index preconditions before
`create_delta_sync_index` is called — the source table is (over)written with
the fixed 10-record literal dataset whose primary keys are exactly 1..10
(hence unique, and non-null by construction, each a concrete literal), and
the change-data-feed ALTER TABLE runs after the table write and before index
creation in the notebook's step order. -/
theorem create_index_preconditions_established :
    faq_data.map Prod.fst = [1, 2, 3, 4, 5, 6, 7, 8, 9, 10] ∧
    (faq_data.map Prod.fst).Nodup ∧
    table_write_mode = "overwrite" ∧
    List.indexOf NotebookStep.writeFaqTable notebook_steps <
      List.indexOf NotebookStep.enableChangeDataFeed notebook_steps ∧
    List.indexOf NotebookStep.enableChangeDataFeed notebook_steps <
      List.indexOf NotebookStep.createIndexAndWait notebook_steps :=
  ⟨rfl, by decide, rfl, by decide, by decide⟩

/-- When some query precondition is violated, `similarity_search` fails with
exactly the violated precondition kinds and returns no results. -/
theorem similarity_search_error_of_precheck (idx : Index)
    (score fused : String → Int) (cand : Nat) (mode : SearchMode) (k : Int)
    (h : ¬ precheck idx.state k = []) :
    similarity_search idx score fused cand mode k =
      Except.error (precheck idx.state k) := by
  unfold similarity_search
  rw [if_neg h]

/-- C5: every query issued against an index whose state is not ONLINE (for
example PROVISIONING or SYNCING) fails with a NotReady error rather than
returning results, in either search mode and for every number of results. -/
theorem search_not_online_fails (idx : Index) (score fused : String → Int)
    (cand : Nat) (mode : SearchMode) (k : Int)
    (h : idx.state ≠ IndexState.ONLINE) :
    similarity_search idx score fused cand mode k =
      Except.error (precheck idx.state k) ∧
    ErrKind.notReady ∈ precheck idx.state k := by
  have hpre : precheck idx.state k =
      ErrKind.notReady :: (if k ≤ 0 then [ErrKind.invalidArgument] else []) := by
    unfold precheck
    rw [if_neg h]
    rfl
  refine ⟨similarity_search_error_of_precheck idx score fused cand mode k ?_, ?_⟩
  · rw [hpre]
    exact List.cons_ne_nil _ _
  · rw [hpre]
    exact List.mem_cons_self _ _

/-- The FAQ index while still provisioning (before the wait loop reports
ready), as on a fresh run that queries too early. -/
def provisioning_faq_index : Index :=
  { name := "billing_faq_vs_index", state := IndexState.PROVISIONING,
    entries := faq_data }

theorem search_not_online_fails_witness :
    provisioning_faq_index.state ≠ IndexState.ONLINE ∧
    (similarity_search provisioning_faq_index (fun _ => 0) (fun _ => 0) 10
        SearchMode.ANN 5 =
      Except.error (precheck provisioning_faq_index.state 5) ∧
      ErrKind.notReady ∈ precheck provisioning_faq_index.state 5) :=
  ⟨by decide,
   search_not_online_fails provisioning_faq_index (fun _ => 0) (fun _ => 0) 10
     SearchMode.ANN 5 (by decide)⟩

/-- C6: every query with `num_results ≤ 0` fails with an InvalidArgument
error and returns no results — never an empty or partial result set reported
as a success — in either search mode and whatever the index state. -/
theorem search_nonpositive_k_fails (idx : Index) (score fused : String → Int)
    (cand : Nat) (mode : SearchMode) (k : Int) (h : k ≤ 0) :
    similarity_search idx score fused cand mode k =
      Except.error (precheck idx.state k) ∧
    ErrKind.invalidArgument ∈ precheck idx.state k := by
  have hpre : precheck idx.state k =
      (if idx.state = IndexState.ONLINE then [] else [ErrKind.notReady]) ++
        [ErrKind.invalidArgument] := by
    unfold precheck
    rw [if_pos h]
  refine ⟨similarity_search_error_of_precheck idx score fused cand mode k ?_, ?_⟩
  · rw [hpre]
    rcases (if idx.state = IndexState.ONLINE then ([] : List ErrKind)
        else [ErrKind.notReady]) with _ | ⟨a, l⟩ <;> simp
  · rw [hpre]
    exact List.mem_append_right _ (List.mem_cons_self _ _)

theorem search_nonpositive_k_fails_witness :
    (0 : Int) ≤ 0 ∧
    (similarity_search billing_faq_index (fun _ => 0) (fun _ => 0) 10
        SearchMode.hybrid 0 =
      Except.error (precheck billing_faq_index.state 0) ∧
      ErrKind.invalidArgument ∈ precheck billing_faq_index.state 0) :=
  ⟨by decide,
   search_nonpositive_k_fails billing_faq_index (fun _ => 0) (fun _ => 0) 10
     SearchMode.hybrid 0 (by decide)⟩

/-- If `m` is an entry whose score is strictly above every other entry's,
then `m` is the head of the ANN ranking. -/
theorem ann_rank_head_of_strict_max (score : String → Int)
    (l : List (Nat × String)) (m : Nat × String) (hm : m ∈ l)
    (h : ∀ r ∈ l, r ≠ m → score r.2 < score m.2) :
    (ann_rank score l).head? = some m := by
  have hperm := List.perm_insertionSort (rankRel score) l
  have hsorted := List.sorted_insertionSort (rankRel score) l
  have hmem : m ∈ List.insertionSort (rankRel score) l := hperm.mem_iff.mpr hm
  unfold ann_rank
  cases hout : List.insertionSort (rankRel score) l with
  | nil =>
      rw [hout] at hmem
      cases hmem
  | cons r0 rest =>
      rw [hout] at hmem hsorted hperm
      by_cases heq : r0 = m
      · rw [heq]
        rfl
      · exfalso
        have hr0 : r0 ∈ l := hperm.mem_iff.mp (List.mem_cons_self r0 rest)
        have hlt : score r0.2 < score m.2 := h r0 hr0 heq
        have hrest : m ∈ rest := by
          rcases List.mem_cons.mp hmem with hcase | hcase
          · exact absurd hcase.symm heq
          · exact hcase
        have hrel : rankRel score r0 m := (List.sorted_cons.mp hsorted).1 m hrest
        unfold rankRel at hrel
        omega

/-- The head of `l.take 5` is the head of `l`. -/
theorem head?_take_five {α : Type} (l : List α) : (l.take 5).head? = l.head? := by
  cases l <;> rfl

/-- C7: for the bill-due-date query against the ONLINE index built from the
10-record FAQ dataset, ANN search with `num_results = 5` returns the record
with primary key 10 as the top-ranked result, for every embedding-oracle
scoring under which that record's text outscores every other record of the
dataset (and whatever hybrid fusion policy and candidate size are
configured). -/
theorem ann_top_result_is_record_10 (score fused : String → Int) (cand : Nat)
    (h : ∀ r ∈ faq_data, r ≠ faq_record_10 → score r.2 < score faq_record_10.2) :
    top_result
        (similarity_search billing_faq_index score fused cand SearchMode.ANN 5) =
      some 10 := by
  have hpre : precheck billing_faq_index.state 5 = [] := rfl
  have hsearch : similarity_search billing_faq_index score fused cand
      SearchMode.ANN 5 = Except.ok ((ann_rank score faq_data).take 5) := by
    unfold similarity_search
    rw [if_pos hpre]
    rfl
  rw [hsearch]
  have hmem : faq_record_10 ∈ faq_data := by decide
  have hhead := ann_rank_head_of_strict_max score faq_data faq_record_10 hmem h
  show ((ann_rank score faq_data).take 5).head?.map Prod.fst = some 10
  rw [head?_take_five, hhead]
  rfl

/-- A concrete stand-in for the embedding oracle: score 1 exactly when the
text contains "A: Yes", which among the FAQ texts singles out record 10. -/
def c7_witness_score (t : String) : Int :=
  if str_contains t "A: Yes" then 1 else 0

theorem ann_top_result_is_record_10_witness :
    (∀ r ∈ faq_data, r ≠ faq_record_10 →
      c7_witness_score r.2 < c7_witness_score faq_record_10.2) ∧
    top_result
        (similarity_search billing_faq_index c7_witness_score c7_witness_score 10
          SearchMode.ANN 5) =
      some 10 :=
  ⟨by decide,
   ann_top_result_is_record_10 c7_witness_score c7_witness_score 10 (by decide)⟩

/-- C8: for a fixed query and fixed index state, every hybrid-mode result is
drawn from the ANN candidate pool at the internal candidate size (equal to or
larger than the number of results requested): hybrid re-scores and reorders
that pool and never returns a primary key absent from it, whatever the fusion
policy. -/
theorem hybrid_subset_of_ann_candidates (idx : Index)
    (score fused : String → Int) (cand : Nat) (k : Int)
    (res : List (Nat × String)) (p : Nat × String)
    (_hcand : k.toNat ≤ cand)
    (hok : similarity_search idx score fused cand SearchMode.hybrid k =
      Except.ok res)
    (hp : p ∈ res) :
    p.1 ∈ (ann_candidates idx score cand).map Prod.fst := by
  unfold similarity_search at hok
  by_cases hpre : precheck idx.state k = []
  · rw [if_pos hpre] at hok
    have hres : res =
        (ann_rank fused (ann_candidates idx score cand)).take k.toNat := by
      cases hok
      rfl
    rw [hres] at hp
    have hp2 : p ∈ ann_rank fused (ann_candidates idx score cand) :=
      List.take_subset _ _ hp
    have hp3 : p ∈ ann_candidates idx score cand :=
      (List.perm_insertionSort (rankRel fused) _).mem_iff.mp hp2
    exact List.mem_map_of_mem Prod.fst hp3
  · rw [if_neg hpre] at hok
    cases hok

/-- A three-entry ONLINE index for exercising hybrid search concretely. -/
def c8_witness_index : Index :=
  { name := "hybrid_witness_index", state := IndexState.ONLINE,
    entries := [(1, "a"), (2, "b"), (3, "c")] }

theorem hybrid_subset_of_ann_candidates_witness :
    (2 : Int).toNat ≤ 2 ∧
    similarity_search c8_witness_index (fun _ => 0) (fun _ => 0) 2
        SearchMode.hybrid 2 =
      Except.ok [(1, "a"), (2, "b")] ∧
    ((1 : Nat), "a") ∈ [((1 : Nat), "a"), (2, "b")] ∧
    ((1 : Nat), "a").1 ∈
      (ann_candidates c8_witness_index (fun _ => 0) 2).map Prod.fst :=
  ⟨by decide, by rfl, by decide,
   hybrid_subset_of_ann_candidates c8_witness_index (fun _ => 0) (fun _ => 0) 2 2
     [(1, "a"), (2, "b")] (1, "a") (by decide) (by rfl) (by decide)⟩

end VSNotebook
